import Mathlib

/-
  Verification of the gst-vosk streaming speech-recognition element
  (src/src/gstvosk.c, src/src/gstvosk.h).

  Shallow embedding: the element state (struct _GstVosk) is a Lean
  structure; each C function that the claims mention becomes a pure Lean
  function from state (plus the values returned by the opaque libvosk
  engine and the pipeline clock, passed in as explicit inputs) to a new
  state together with its observable effects (posted element messages,
  buffers pushed downstream, buffers fed to the engine).

  The opaque engine calls (vosk_recognizer_accept_waveform,
  vosk_recognizer_result, vosk_recognizer_partial_result,
  vosk_recognizer_final_result) and the pipeline clock
  (gst_element_get_current_running_time) are modelled as inputs in a
  HandleEnv record: the C code treats their return values as opaque data.

  GstClockTime values are modelled as Int (GST_CLOCK_DIFF is signed
  64-bit arithmetic); byte counters (guint64 processed_size, buffer
  sizes) as Nat; the float comparison processed_size <= rate / 10 is
  modelled exactly as 10 * processed_size <= rate (all caps-negotiated
  rates are multiples of ten and exactly representable).
-/

/-- An audio buffer (GstBuffer): identity, payload size in bytes and
presentation timestamp (GST_BUFFER_PTS). -/
structure GstBuf where
  id : Nat
  size : Nat
  pts : Int
deriving DecidableEq

/-- A live VoskRecognizer handle, bound to the model it was built from and
the sample rate passed to vosk_recognizer_new. -/
structure Recognizer where
  model : Nat
  rate : Nat
deriving DecidableEq

/-- The element state: the fields of struct _GstVosk from src/src/gstvosk.c
that the claims are about.  VoskModel and the cancellation token
(GCancellable current_operation) are modelled by their identity / their
cancelled flag.  prev_partial_text is the prev_partial field of the
source. -/
structure VoskState where
  model_path : Option String
  rate : Nat
  processed_size : Nat
  alternatives : Int
  prev_partial_text : Option String
  buffer : List GstBuf
  buffering : Bool
  recognizer : Option Recognizer
  model : Option Nat
  current_operation : Option Bool
  num_loading_threads : Int
deriving DecidableEq

/-- The state set up by gst_vosk_init: rate 0, nothing processed, default
model path, empty queue, no recognizer, no model, no pending operation. -/
def initState : VoskState :=
  { model_path := some ("/usr/share/vosk/model")
    rate := 0
    processed_size := 0
    alternatives := 0
    prev_partial_text := none
    buffer := []
    buffering := false
    recognizer := none
    model := none
    current_operation := none
    num_loading_threads := 0 }

/-- The values the opaque engine and the pipeline clock return during one
gst_vosk_handle_buffer call: the current running time, the return code of
vosk_recognizer_accept_waveform, and the strings returned by
vosk_recognizer_result and vosk_recognizer_partial_result. -/
structure HandleEnv where
  current_running_time : Int
  accept_result : Int
  res_text : String
  hyp_text : String
deriving DecidableEq

/-- GST_SECOND in nanoseconds. -/
def GST_SECOND : Int := 1000000000

/-- gst_vosk_cancel_current_operation: cancels and drops the pending
cancellation token, if any (the token itself is flagged cancelled and
unreferenced, so it leaves the state). -/
def gst_vosk_cancel_current_operation (s : VoskState) : VoskState :=
  match s.current_operation with
  | some _ => { s with current_operation := none }
  | none => s

/-- gst_vosk_clean_current_model: frees the recognizer (resetting
processed_size when one existed), frees the model and zeroes the rate. -/
def gst_vosk_clean_current_model (s : VoskState) : VoskState :=
  let s1 :=
    match s.recognizer with
    | some _ => { s with recognizer := none, processed_size := 0 }
    | none => s
  let s2 :=
    match s1.model with
    | some _ => { s1 with model := none }
    | none => s1
  { s2 with rate := 0 }

/-- gst_vosk_recognizer_new: when the rate argument is not positive, the
rate negotiated on the sink pad caps (capsRate, 0 when absent) is used; no
recognizer is created without a positive rate or without a model;
otherwise the element rate is recorded, processed_size is zeroed and a
recognizer bound to (model, rate) is returned. -/
def gst_vosk_recognizer_new (s : VoskState) (model : Option Nat)
    (rate : Nat) (capsRate : Nat) : VoskState × Option Recognizer :=
  let r := if rate = 0 then capsRate else rate
  if r = 0 then (s, none)
  else
    match model with
    | none => (s, none)
    | some m => ({ s with rate := r, processed_size := 0 }, some ⟨m, r⟩)

/-- Result of gst_vosk_load_model_real: the new state, the boolean the
function returns, and whether the freshly constructed model was discarded
(vosk_model_free on the construction result). -/
structure LoadOut where
  state : VoskState
  ok : Bool
  freedConstructed : Bool
deriving DecidableEq

/-- The epilogue of gst_vosk_load_model_real (label out): decrement
num_loading_threads, clear the buffering flag when no loader remains, and
return ret combined with a final cancellation check. -/
def gst_vosk_load_finish (s : VoskState) (cancelled : Bool) (ret : Bool)
    (freed : Bool) : LoadOut :=
  let s1 := { s with num_loading_threads := s.num_loading_threads - 1 }
  let s2 := if s1.num_loading_threads = 0 then { s1 with buffering := false } else s1
  { state := s2, ok := ret && !cancelled, freedConstructed := freed }

/-- gst_vosk_load_model_real: under the lock the current model and
recognizer are freed and the path copied; vosk_model_new then runs
outside the lock and its result is the constructed input (none on
construction failure); back under the lock, a null model fails, a load
whose token is cancelled frees the constructed model without installing
it, and otherwise the model is installed and a recognizer created from
the caps-negotiated rate.  cancelled is the value of
g_cancellable_is_cancelled read under the lock. -/
def gst_vosk_load_model_real (s : VoskState) (constructed : Option Nat)
    (cancelled : Bool) (capsRate : Nat) : LoadOut :=
  let s1 := gst_vosk_clean_current_model s
  match constructed with
  | none => gst_vosk_load_finish s1 cancelled false false
  | some m =>
    if cancelled then gst_vosk_load_finish s1 cancelled false true
    else
      let p := gst_vosk_recognizer_new { s1 with model := some m } (some m) 0 capsRate
      gst_vosk_load_finish { p.1 with recognizer := p.2 } cancelled true false

/-- Result of gst_vosk_final_result: the new state, the returned JSON text
(none models returning NULL) and whether vosk_recognizer_final_result was
actually called on the engine. -/
structure FinalOut where
  state : VoskState
  json : Option String
  queried : Bool
deriving DecidableEq

/-- gst_vosk_final_result: returns NULL without touching the engine when
there is no recognizer or when processed_size is 0; otherwise clears
prev_partial, consumes vosk_recognizer_final_result (its text is the
finalText input), zeroes processed_size, and returns the text unless it
is empty. -/
def gst_vosk_final_result (s : VoskState) (finalText : String) : FinalOut :=
  match s.recognizer with
  | none => { state := s, json := none, queried := false }
  | some _ =>
    if s.processed_size = 0 then { state := s, json := none, queried := false }
    else
      { state := { s with prev_partial_text := none, processed_size := 0 }
        json := if finalText = "" then none else some finalText
        queried := true }

/-- The final-results property getter (gst_vosk_get_property, case
PROP_RESULT): takes the lock, runs gst_vosk_final_result and hands its
text to the caller. -/
def gst_vosk_get_property_result (s : VoskState) (finalText : String) : FinalOut :=
  gst_vosk_final_result s finalText

/-- Result of gst_vosk_flush: the new state and whether
vosk_recognizer_reset was invoked on the engine. -/
structure FlushOut where
  state : VoskState
  didReset : Bool
deriving DecidableEq

/-- gst_vosk_flush (run on FLUSH_START): empties the queue, and when a
recognizer exists resets it (the handle itself is kept) and zeroes
processed_size. -/
def gst_vosk_flush (s : VoskState) : FlushOut :=
  let s1 := { s with buffer := [] }
  match s1.recognizer with
  | some _ => { state := { s1 with processed_size := 0 }, didReset := true }
  | none => { state := s1, didReset := false }

/-- Result of the EOS branch of gst_vosk_sink_event: the new state, the
element messages posted (each carries the nullable result string), whether
the engine was queried for a final result, and whether the event was
forwarded downstream via gst_pad_event_default. -/
structure EosOut where
  state : VoskState
  msgs : List (Option String)
  queriedFinal : Bool
  forwarded : Bool
deriving DecidableEq

/-- The GST_EVENT_EOS branch of gst_vosk_sink_event: under the lock it
runs gst_vosk_final_result and posts one element message carrying the
(possibly NULL) text via gst_vosk_message_new, then forwards the event. -/
def gst_vosk_sink_event_eos (s : VoskState) (finalText : String) : EosOut :=
  let fr := gst_vosk_final_result s finalText
  { state := fr.state, msgs := [fr.json], queriedFinal := fr.queried, forwarded := true }

/-- gst_vosk_result: posts the text of vosk_recognizer_result, clears
prev_partial and zeroes processed_size. -/
def gst_vosk_result (s : VoskState) (resText : String) : VoskState × List (Option String) :=
  ({ s with prev_partial_text := none, processed_size := 0 }, [some resText])

/-- gst_vosk_partial_result as it stands in src/src/gstvosk.c: posts the
text of vosk_recognizer_partial_result only when it is non-empty and
differs from prev_partial, and records it as the new prev_partial.  (No
interval throttling exists in this revision.) -/
def gst_vosk_partial_result (s : VoskState) (hypText : String) : VoskState × List (Option String) :=
  if hypText = "" then (s, [])
  else if s.prev_partial_text = some hypText then (s, [])
  else ({ s with prev_partial_text := some hypText }, [some hypText])

/-- Result of gst_vosk_handle_buffer: new state, posted messages, and
whether control reached the switch on the accept_waveform return code
(checked = the result query was not skipped by the catch-up / underfeed
policy). -/
structure HandleOut where
  state : VoskState
  msgs : List (Option String)
  checked : Bool
deriving DecidableEq

/-- The switch on the vosk_recognizer_accept_waveform return code at the
end of gst_vosk_handle_buffer: 1 checks the final result, 0 the partial
result, anything else is an accept error (logged, nothing queried). -/
def gst_vosk_check_result (s : VoskState) (e : HandleEnv) : HandleOut :=
  if e.accept_result = 1 then
    let p := gst_vosk_result s e.res_text
    { state := p.1, msgs := p.2, checked := true }
  else if e.accept_result = 0 then
    let p := gst_vosk_partial_result s e.hyp_text
    { state := p.1, msgs := p.2, checked := true }
  else
    { state := s, msgs := [], checked := true }

/-- gst_vosk_handle_buffer: empty buffers are ignored; otherwise the data
is fed to the engine and processed_size grows by the buffer size; when
diff_time = current running time - PTS exceeds half a second the result
check only runs once the processed bytes wrap around one rate-worth of
data (processed_size modulo rate smaller than the buffer size), and
otherwise the check is skipped while processed_size is at most rate / 10
bytes (the C float comparison, written exactly). -/
def gst_vosk_handle_buffer (s : VoskState) (e : HandleEnv) (buf : GstBuf) : HandleOut :=
  if buf.size = 0 then { state := s, msgs := [], checked := false }
  else if e.current_running_time - buf.pts > GST_SECOND / 2 then
    if (s.processed_size + buf.size) % s.rate ≥ buf.size then
      { state := { s with processed_size := s.processed_size + buf.size }
        msgs := [], checked := false }
    else
      gst_vosk_check_result { s with processed_size := s.processed_size + buf.size } e
  else if 10 * (s.processed_size + buf.size) ≤ s.rate then
    { state := { s with processed_size := s.processed_size + buf.size }
      msgs := [], checked := false }
  else
    gst_vosk_check_result { s with processed_size := s.processed_size + buf.size } e

/-- Result of the drain loop of gst_vosk_chain_empty_buffer: final state
(with its stale queue field), the remaining queue, the buffers handled in
order, and the messages posted. -/
structure GoOut where
  state : VoskState
  remaining : List GstBuf
  handled : List GstBuf
  msgs : List (Option String)
deriving DecidableEq

/-- The pop-handle loop of gst_vosk_chain_empty_buffer, with num_buf the
loop counter: each iteration pops the head, handles it, and breaks once
the pre-increment counter value exceeds 10.  The engine responses for the
n-th handled buffer are env n.  (gst_vosk_handle_buffer never reads or
writes the queue, so the queue is threaded separately here and written
back by gst_vosk_chain_empty_buffer.) -/
def gst_vosk_chain_empty_buffer_go (env : Nat → HandleEnv) :
    VoskState → List GstBuf → Nat → GoOut
  | s, [], _ => { state := s, remaining := [], handled := [], msgs := [] }
  | s, buf :: rest, numBuf =>
    let out := gst_vosk_handle_buffer s (env numBuf) buf
    if numBuf > 10 then
      { state := out.state, remaining := rest, handled := [buf], msgs := out.msgs }
    else
      let g := gst_vosk_chain_empty_buffer_go env out.state rest (numBuf + 1)
      { state := g.state, remaining := g.remaining
        handled := buf :: g.handled, msgs := out.msgs ++ g.msgs }

/-- Result of gst_vosk_chain_empty_buffer: new state (queue = what the
loop left), handled buffers in order, posted messages. -/
structure DrainOut where
  state : VoskState
  handled : List GstBuf
  msgs : List (Option String)
deriving DecidableEq

/-- gst_vosk_chain_empty_buffer: drains the queued buffers head-first,
handling each like a live buffer, with the bounded-effort break of the
loop above. -/
def gst_vosk_chain_empty_buffer (s : VoskState) (env : Nat → HandleEnv) : DrainOut :=
  let g := gst_vosk_chain_empty_buffer_go env s s.buffer 0
  { state := { g.state with buffer := g.remaining }, handled := g.handled, msgs := g.msgs }

/-- Result of gst_vosk_chain: new state, posted messages, buffers fed to
the engine (in order), and buffers pushed downstream on the source pad. -/
structure ChainOut where
  state : VoskState
  msgs : List (Option String)
  handled : List GstBuf
  downstream : List GstBuf
deriving DecidableEq

/-- gst_vosk_chain: while buffering, the buffer is queued at the tail;
otherwise with a recognizer present it is either handled directly (empty
queue) or queued at the tail and the queue drained; with no recognizer
and not buffering the buffer is only logged.  In every case the buffer is
then pushed once, unmodified, on the source pad. -/
def gst_vosk_chain (s : VoskState) (env : Nat → HandleEnv) (buf : GstBuf) : ChainOut :=
  if s.buffering then
    { state := { s with buffer := s.buffer ++ [buf] }
      msgs := [], handled := [], downstream := [buf] }
  else
    match s.recognizer with
    | some _ =>
      if s.buffer.isEmpty then
        let out := gst_vosk_handle_buffer s (env 0) buf
        { state := out.state, msgs := out.msgs, handled := [buf], downstream := [buf] }
      else
        let d := gst_vosk_chain_empty_buffer { s with buffer := s.buffer ++ [buf] } env
        { state := d.state, msgs := d.msgs, handled := d.handled, downstream := [buf] }
    | none =>
      { state := s, msgs := [], handled := [], downstream := [buf] }

/-- Modelled from the spec: the throttled Result Emitter of the refined
revision.  The fields last_partial (timestamp of the last partial
publication, GstClockTime) and partial_time_interval (gint64, -1 disables
partials) are declared in src/src/gstvosk.h, but no code under src/ uses
them: the implementation of the throttled partial emitter is missing from
src/.  This state models those element fields; interval is
partial_time_interval, lastTime is last_partial (none before any
publication), prevText is prev_partial. -/
structure PartialEmitterState where
  interval : Int
  lastTime : Option Int
  prevText : Option String
deriving DecidableEq

/-- Modelled from the spec: one call of the missing throttled partial
emitter, on the text the engine reports and the frame presentation
timestamp.  Publish only if the text is non-empty (the empty sentinel),
differs from the previously published partial, partials are not disabled
(interval = -1), and at least interval time units have elapsed since the
last publication, measured on frame presentation time.  Returns the new
state and the published event (timestamp, text), if any. -/
def gst_vosk_partial_result_model (s : PartialEmitterState) (txt : String)
    (pts : Int) : PartialEmitterState × Option (Int × String) :=
  if s.interval = -1 then (s, none)
  else if txt = "" then (s, none)
  else if s.prevText = some txt then (s, none)
  else
    match s.lastTime with
    | none => ({ s with prevText := some txt, lastTime := some pts }, some (pts, txt))
    | some t =>
      if s.interval ≤ pts - t then
        ({ s with prevText := some txt, lastTime := some pts }, some (pts, txt))
      else (s, none)

/-- Runs the modelled emitter over a trace of (engine text, frame PTS)
inputs and collects the published events in order. -/
def runPartialEmitter (s : PartialEmitterState) :
    List (String × Int) → List (Int × String)
  | [] => []
  | (txt, pts) :: rest =>
    match gst_vosk_partial_result_model s txt pts with
    | (s', some ev) => ev :: runPartialEmitter s' rest
    | (s', none) => runPartialEmitter s' rest

/-- Every adjacent pair of a list of timestamps is at least i apart. -/
def gapsOK (i : Int) : List Int → Bool
  | a :: b :: rest => (decide (i ≤ b - a)) && gapsOK i (b :: rest)
  | _ => true

/-- Over any input trace the modelled emitter publishes events whose
timestamps are spaced by at least the configured interval; moreover,
starting from a state that already published at time t, the whole
published timestamp list prefixed with t is still correctly spaced. -/
theorem runPartialEmitter_gaps :
    ∀ (l : List (String × Int)) (s : PartialEmitterState),
      gapsOK s.interval ((runPartialEmitter s l).map Prod.fst) = true ∧
      ∀ t, s.lastTime = some t →
        gapsOK s.interval (t :: (runPartialEmitter s l).map Prod.fst) = true := by
  intro l
  induction l with
  | nil =>
    intro s
    exact ⟨rfl, fun t _ => rfl⟩
  | cons hd rest ih =>
    intro s
    obtain ⟨txt, pts⟩ := hd
    by_cases h1 : s.interval = -1
    · have hstep : runPartialEmitter s ((txt, pts) :: rest) = runPartialEmitter s rest := by
        simp [runPartialEmitter, gst_vosk_partial_result_model, h1]
      rw [hstep]
      exact ih s
    · by_cases h2 : txt = ""
      · have hstep : runPartialEmitter s ((txt, pts) :: rest) = runPartialEmitter s rest := by
          simp [runPartialEmitter, gst_vosk_partial_result_model, h1, h2]
        rw [hstep]
        exact ih s
      · by_cases h3 : s.prevText = some txt
        · have hstep : runPartialEmitter s ((txt, pts) :: rest) = runPartialEmitter s rest := by
            simp [runPartialEmitter, gst_vosk_partial_result_model, h1, h2, h3]
          rw [hstep]
          exact ih s
        · cases hl : s.lastTime with
          | none =>
            have hstep : runPartialEmitter s ((txt, pts) :: rest) =
                (pts, txt) :: runPartialEmitter { s with prevText := some txt, lastTime := some pts } rest := by
              simp [runPartialEmitter, gst_vosk_partial_result_model, h1, h2, h3, hl]
            rw [hstep]
            constructor
            · have := (ih { s with prevText := some txt, lastTime := some pts }).2 pts rfl
              simpa using this
            · intro t ht
              exact absurd ht (by simp)
          | some t0 =>
            by_cases h4 : s.interval ≤ pts - t0
            · have hstep : runPartialEmitter s ((txt, pts) :: rest) =
                  (pts, txt) :: runPartialEmitter { s with prevText := some txt, lastTime := some pts } rest := by
                simp [runPartialEmitter, gst_vosk_partial_result_model, h1, h2, h3, hl, h4]
              rw [hstep]
              have htail := (ih { s with prevText := some txt, lastTime := some pts }).2 pts rfl
              constructor
              · simpa using htail
              · intro t ht
                injection ht with ht
                subst ht
                simp only [List.map_cons, gapsOK]
                rw [Bool.and_eq_true]
                exact ⟨by simpa using h4, by simpa using htail⟩
            · have hstep : runPartialEmitter s ((txt, pts) :: rest) = runPartialEmitter s rest := by
                simp [runPartialEmitter, gst_vosk_partial_result_model, h1, h2, h3, hl, h4]
              rw [hstep]
              obtain ⟨g1, g2⟩ := ih s
              refine ⟨g1, ?_⟩
              intro t ht
              injection ht with ht
              subst ht
              exact g2 t0 hl

/-- With the interval set to -1 the modelled emitter never publishes. -/
theorem runPartialEmitter_disabled :
    ∀ (l : List (String × Int)) (s : PartialEmitterState),
      s.interval = -1 → runPartialEmitter s l = [] := by
  intro l
  induction l with
  | nil => intro s _; rfl
  | cons hd rest ih =>
    intro s h
    obtain ⟨txt, pts⟩ := hd
    have hstep : runPartialEmitter s ((txt, pts) :: rest) = runPartialEmitter s rest := by
      simp [runPartialEmitter, gst_vosk_partial_result_model, h]
    rw [hstep]
    exact ih s h

/-- The drain loop handles a prefix of the queue (FIFO, the rest is left
as the remaining queue) and, started at counter n, handles at most
12 - n buffers (at most one once the counter passed 10). -/
theorem chain_empty_buffer_go_spec (env : Nat → HandleEnv) :
    ∀ (q : List GstBuf) (s : VoskState) (n : Nat),
      (gst_vosk_chain_empty_buffer_go env s q n).handled ++
        (gst_vosk_chain_empty_buffer_go env s q n).remaining = q ∧
      ((gst_vosk_chain_empty_buffer_go env s q n).handled.length + n ≤ 12 ∨
        (gst_vosk_chain_empty_buffer_go env s q n).handled.length ≤ 1) := by
  intro q
  induction q with
  | nil =>
    intro s n
    exact ⟨rfl, Or.inr (by simp [gst_vosk_chain_empty_buffer_go])⟩
  | cons b rest ih =>
    intro s n
    by_cases hn : n > 10
    · constructor
      · simp [gst_vosk_chain_empty_buffer_go, hn]
      · simp [gst_vosk_chain_empty_buffer_go, hn]
    · obtain ⟨h1, h2⟩ := ih (gst_vosk_handle_buffer s (env n) b).state (n + 1)
      constructor
      · simpa [gst_vosk_chain_empty_buffer_go, hn] using h1
      · have hlen : (gst_vosk_chain_empty_buffer_go env s (b :: rest) n).handled.length =
            (gst_vosk_chain_empty_buffer_go env
              (gst_vosk_handle_buffer s (env n) b).state rest (n + 1)).handled.length + 1 := by
          simp [gst_vosk_chain_empty_buffer_go, hn]
        rw [hlen]
        omega

/-- A concrete 13-deep queue in front of a live recognizer, used to
exercise the drain loop. -/
def drainTestState : VoskState :=
  { initState with
    rate := 16000
    recognizer := some ⟨0, 16000⟩
    buffer := (List.range 13).map (fun i => ⟨i, 320, 0⟩) }

/-- The result switch at the end of gst_vosk_handle_buffer always counts
as a reached check, whatever the accept code. -/
theorem gst_vosk_check_result_checked (s : VoskState) (e : HandleEnv) :
    (gst_vosk_check_result s e).checked = true := by
  unfold gst_vosk_check_result
  split
  · rfl
  · split <;> rfl

/-- C1: over any input trace, the modelled throttled emitter publishes
partial events whose frame timestamps are spaced by at least the
configured minimum partial interval, and with the interval set to -1 it
never publishes. -/
theorem C1_partial_throttling (s : PartialEmitterState) (l : List (String × Int)) :
    gapsOK s.interval ((runPartialEmitter s l).map Prod.fst) = true ∧
    (s.interval = -1 → runPartialEmitter s l = []) :=
  ⟨(runPartialEmitter_gaps l s).1, runPartialEmitter_disabled l s⟩

theorem C1_partial_throttling_witness :
    gapsOK (5 : Int)
      ((runPartialEmitter ⟨5, none, none⟩
        [("a", 0), ("b", 3), ("b", 6), ("c", 7)]).map Prod.fst) = true ∧
    runPartialEmitter ⟨-1, none, none⟩ [("a", 0), ("b", 7)] = [] :=
  ⟨(C1_partial_throttling ⟨5, none, none⟩ [("a", 0), ("b", 3), ("b", 6), ("c", 7)]).1,
    (C1_partial_throttling ⟨-1, none, none⟩ [("a", 0), ("b", 7)]).2 rfl⟩

/-- C2: every buffer delivered to gst_vosk_chain is pushed downstream
unmodified exactly once, whatever the engine availability, the buffering
flag and the recognition outcome. -/
theorem C2_chain_forwards_downstream_once (s : VoskState) (env : Nat → HandleEnv)
    (buf : GstBuf) :
    (gst_vosk_chain s env buf).downstream = [buf] := by
  cases hb : s.buffering <;> cases hr : s.recognizer <;>
    by_cases he : s.buffer.isEmpty <;>
      simp [gst_vosk_chain, hb, hr, he]

/-- C3 counterexample: with a recognizer present and processed_size = 0,
the EOS branch still posts one element message (its result payload is
null): a transcription message is published anyway. -/
theorem C3_eos_posts_message_counterexample :
    ({ initState with rate := 16000, recognizer := some ⟨0, 16000⟩ } : VoskState).processed_size = 0 ∧
    (gst_vosk_sink_event_eos
      { initState with rate := 16000, recognizer := some ⟨0, 16000⟩ } ("x")).msgs = [none] :=
  ⟨rfl, rfl⟩

/-- C3 (amended): when EOS arrives with processed_size = 0 the recognizer
is never queried for a final result, the state is unchanged, no
transcription text is produced (the lone posted message carries a null
payload) and EOS is forwarded downstream. -/
theorem C3_eos_no_text_when_nothing_processed (s : VoskState) (finalText : String)
    (h : s.processed_size = 0) :
    (gst_vosk_sink_event_eos s finalText).queriedFinal = false ∧
    (gst_vosk_sink_event_eos s finalText).msgs = [none] ∧
    (gst_vosk_sink_event_eos s finalText).state = s ∧
    (gst_vosk_sink_event_eos s finalText).forwarded = true := by
  cases hr : s.recognizer <;>
    simp [gst_vosk_sink_event_eos, gst_vosk_final_result, hr, h]

theorem C3_eos_no_text_witness :
    initState.processed_size = 0 ∧
    (gst_vosk_sink_event_eos initState ("y")).queriedFinal = false ∧
    (gst_vosk_sink_event_eos initState ("y")).msgs = [none] ∧
    (gst_vosk_sink_event_eos initState ("y")).state = initState ∧
    (gst_vosk_sink_event_eos initState ("y")).forwarded = true :=
  ⟨rfl, C3_eos_no_text_when_nothing_processed initState ("y") rfl⟩

/-- C4 counterexample: a frame delivered with no recognizer present and
the buffering flag unset is not enqueued: the queue stays empty, so the
frame is dropped from recognition (it is still forwarded downstream). -/
theorem C4_frame_not_enqueued_counterexample :
    initState.recognizer = none ∧
    initState.buffering = false ∧
    (gst_vosk_chain initState (fun _ => ⟨0, 0, ("r"), ("h")⟩) ⟨1, 320, 0⟩).state.buffer = [] ∧
    (gst_vosk_chain initState (fun _ => ⟨0, 0, ("r"), ("h")⟩) ⟨1, 320, 0⟩).handled = [] :=
  ⟨rfl, rfl, rfl, rfl⟩

/-- C4 (amended): a frame delivered while the buffering flag is set (the
state entered when a model load is in flight) is enqueued at the tail of
the frame buffer; with no recognizer and buffering unset the frame is
skipped by recognition instead of being enqueued. -/
theorem C4_buffering_enqueues_tail (s : VoskState) (env : Nat → HandleEnv)
    (buf : GstBuf) (h : s.buffering = true) :
    (gst_vosk_chain s env buf).state.buffer = s.buffer ++ [buf] := by
  simp [gst_vosk_chain, h]

theorem C4_buffering_enqueues_tail_witness :
    ({ initState with buffering := true } : VoskState).buffering = true ∧
    (gst_vosk_chain { initState with buffering := true }
      (fun _ => ⟨0, 0, ("r"), ("h")⟩) ⟨2, 320, 0⟩).state.buffer = [⟨2, 320, 0⟩] :=
  ⟨rfl, C4_buffering_enqueues_tail { initState with buffering := true }
    (fun _ => ⟨0, 0, ("r"), ("h")⟩) ⟨2, 320, 0⟩ rfl⟩

/-- C5: a load whose cancellation token is observed cancelled under the
lock (even though construction already succeeded) never installs the
constructed model: the shared state keeps no model and no recognizer, the
constructed handle is freed, and the load reports failure. -/
theorem C5_cancelled_load_never_installs (s : VoskState) (m : Nat) (capsRate : Nat) :
    (gst_vosk_load_model_real s (some m) true capsRate).state.model = none ∧
    (gst_vosk_load_model_real s (some m) true capsRate).state.recognizer = none ∧
    (gst_vosk_load_model_real s (some m) true capsRate).freedConstructed = true ∧
    (gst_vosk_load_model_real s (some m) true capsRate).ok = false := by
  unfold gst_vosk_load_model_real gst_vosk_load_finish gst_vosk_clean_current_model
  cases hr : s.recognizer <;> cases hm : s.model <;>
    simp [hr, hm] <;> split <;> simp

/-- C6 counterexample: with 13 queued buffers one drain invocation
handles 12 of them, more than the 10 or 11 the claim allows, leaving one
buffer queued. -/
theorem C6_drain_handles_twelve_counterexample :
    drainTestState.buffer.length = 13 ∧
    (gst_vosk_chain_empty_buffer drainTestState (fun _ => ⟨0, 0, ("r"), ("h")⟩)).handled.length = 12 ∧
    (gst_vosk_chain_empty_buffer drainTestState (fun _ => ⟨0, 0, ("r"), ("h")⟩)).state.buffer.length = 1 := by
  refine ⟨by decide, by decide, by decide⟩

/-- C6 (amended): one invocation of gst_vosk_chain_empty_buffer pops and
handles at most 12 buffers (the loop breaks once its post-incremented
counter exceeds 10), in strict FIFO order: the handled prefix followed by
the queue it leaves behind is exactly the original queue. -/
theorem C6_drain_fifo_bounded (s : VoskState) (env : Nat → HandleEnv) :
    (gst_vosk_chain_empty_buffer s env).handled.length ≤ 12 ∧
    (gst_vosk_chain_empty_buffer s env).handled ++
      (gst_vosk_chain_empty_buffer s env).state.buffer = s.buffer := by
  obtain ⟨h1, h2⟩ := chain_empty_buffer_go_spec env s.buffer s 0
  constructor
  · have : (gst_vosk_chain_empty_buffer s env).handled.length =
        (gst_vosk_chain_empty_buffer_go env s s.buffer 0).handled.length := rfl
    rw [this]
    omega
  · simpa [gst_vosk_chain_empty_buffer] using h1

/-- C7 counterexample: at rate 16000 (bytes_per_second 32000, so 100 ms
is 3200 bytes), a 2000-byte frame with no lag and nothing processed since
the last result carries only 62.5 ms of audio, yet the result check
runs. -/
theorem C7_queries_below_100ms_counterexample :
    (2000 : Nat) < 2 * 16000 / 10 ∧
    (gst_vosk_handle_buffer { initState with rate := 16000, recognizer := some ⟨0, 16000⟩ }
      ⟨0, 0, ("r"), ("h")⟩ ⟨0, 2000, 0⟩).checked = true := by
  refine ⟨by decide, by decide⟩

/-- C7 (amended): for a non-empty buffer whose lag is at most half a
second, the result check runs iff the processed bytes including this
buffer exceed rate / 10 bytes, i.e. 50 ms of audio at bytes_per_second =
2 x sample rate, not 100 ms. -/
theorem C7_underfeed_threshold (s : VoskState) (e : HandleEnv) (buf : GstBuf)
    (h1 : buf.size ≠ 0)
    (h2 : e.current_running_time - buf.pts ≤ GST_SECOND / 2) :
    ((gst_vosk_handle_buffer s e buf).checked = true ↔
      s.rate < 10 * (s.processed_size + buf.size)) := by
  unfold gst_vosk_handle_buffer
  rw [if_neg h1, if_neg (not_lt.mpr h2)]
  by_cases h3 : 10 * (s.processed_size + buf.size) ≤ s.rate
  · rw [if_pos h3]
    simp only []
    constructor
    · intro hfalse
      exact absurd hfalse (by simp)
    · intro hlt
      omega
  · rw [if_neg h3]
    rw [gst_vosk_check_result_checked]
    constructor
    · intro _
      omega
    · intro _
      rfl

theorem C7_underfeed_threshold_witness :
    (320 : Nat) ≠ 0 ∧
    ((0 : Int) - 0 ≤ GST_SECOND / 2) ∧
    ((gst_vosk_handle_buffer { initState with rate := 16000, recognizer := some ⟨0, 16000⟩ }
        ⟨0, 0, ("r"), ("h")⟩ ⟨0, 320, 0⟩).checked = true ↔
      ({ initState with rate := 16000, recognizer := some ⟨0, 16000⟩ } : VoskState).rate <
        10 * (({ initState with rate := 16000, recognizer := some ⟨0, 16000⟩ } : VoskState).processed_size + 320)) :=
  ⟨by decide, by decide,
    C7_underfeed_threshold { initState with rate := 16000, recognizer := some ⟨0, 16000⟩ }
      ⟨0, 0, ("r"), ("h")⟩ ⟨0, 320, 0⟩ (by decide) (by decide)⟩

/-- C8 counterexample: with a pending uncancelled load token, the EOS
branch leaves the token present and uncancelled, whereas cancelling the
current operation would flag it and drop it from the state. -/
theorem C8_eos_does_not_cancel_counterexample :
    ({ initState with current_operation := some false } : VoskState).current_operation = some false ∧
    (gst_vosk_sink_event_eos { initState with current_operation := some false } ("z")).state.current_operation = some false ∧
    (gst_vosk_cancel_current_operation { initState with current_operation := some false }).current_operation = none :=
  ⟨rfl, rfl, rfl⟩

/-- C8 (amended): the EOS branch posts exactly the final-result message
and forwards the event downstream, but leaves current_operation (the
in-flight load token) untouched: no cancellation happens on EOS. -/
theorem C8_eos_emits_and_forwards (s : VoskState) (finalText : String) :
    (gst_vosk_sink_event_eos s finalText).forwarded = true ∧
    (gst_vosk_sink_event_eos s finalText).msgs = [(gst_vosk_final_result s finalText).json] ∧
    (gst_vosk_sink_event_eos s finalText).state.current_operation = s.current_operation := by
  refine ⟨rfl, rfl, ?_⟩
  unfold gst_vosk_sink_event_eos gst_vosk_final_result
  cases hr : s.recognizer
  · rfl
  · by_cases hp : s.processed_size = 0 <;> simp [hp]

/-- C9: gst_vosk_flush (FLUSH_START) discards all queued buffers, zeroes
the processed-byte counter (given the element invariant that the counter
is already 0 whenever no recognizer exists), keeps the recognizer field
unchanged, and invokes the engine reset exactly when a recognizer
exists. -/
theorem C9_flush_discards_resets (s : VoskState)
    (hinv : s.recognizer = none → s.processed_size = 0) :
    (gst_vosk_flush s).state.buffer = [] ∧
    (gst_vosk_flush s).state.processed_size = 0 ∧
    (gst_vosk_flush s).state.recognizer = s.recognizer ∧
    ((gst_vosk_flush s).didReset = true ↔ s.recognizer ≠ none) := by
  unfold gst_vosk_flush
  cases hr : s.recognizer
  · simp [hinv hr]
  · simp

/-- A mid-utterance state: live recognizer, queued buffer, bytes already
processed, used to exercise the flush path. -/
def flushTestState : VoskState :=
  { initState with
    rate := 16000
    recognizer := some ⟨0, 16000⟩
    processed_size := 5
    buffer := [⟨0, 320, 0⟩] }

theorem C9_flush_witness :
    (gst_vosk_flush flushTestState).state.buffer = [] ∧
    (gst_vosk_flush flushTestState).state.processed_size = 0 ∧
    (gst_vosk_flush flushTestState).state.recognizer = flushTestState.recognizer ∧
    ((gst_vosk_flush flushTestState).didReset = true ↔ flushTestState.recognizer ≠ none) :=
  C9_flush_discards_resets flushTestState (by decide)

/-- C10: reading the read-only final-results property with a recognizer
present and a non-zero processed-byte counter has side effects: it
consumes the final result from the engine, clears the cached previous
partial text and zeroes the counter. -/
theorem C10_get_final_results_side_effects (s : VoskState) (finalText : String)
    (h1 : s.recognizer ≠ none) (h2 : s.processed_size ≠ 0) :
    (gst_vosk_get_property_result s finalText).queried = true ∧
    (gst_vosk_get_property_result s finalText).state.prev_partial_text = none ∧
    (gst_vosk_get_property_result s finalText).state.processed_size = 0 := by
  unfold gst_vosk_get_property_result gst_vosk_final_result
  cases hr : s.recognizer
  · exact absurd hr h1
  · simp [h2]

/-- A state with a cached previous partial and processed bytes, used to
exercise the final-results property getter. -/
def propTestState : VoskState :=
  { initState with
    rate := 16000
    recognizer := some ⟨0, 16000⟩
    processed_size := 5
    prev_partial_text := some ("old") }

theorem C10_get_final_results_witness :
    propTestState.recognizer ≠ none ∧
    propTestState.processed_size ≠ 0 ∧
    (gst_vosk_get_property_result propTestState ("final")).queried = true ∧
    (gst_vosk_get_property_result propTestState ("final")).state.prev_partial_text = none ∧
    (gst_vosk_get_property_result propTestState ("final")).state.processed_size = 0 :=
  ⟨by decide, by decide,
    C10_get_final_results_side_effects propTestState ("final") (by decide) (by decide)⟩
